import Mathlib

/-!
Verification of the turn-taking core of the realtime-translate backend.

Shallow embedding of:
- `backend/core/state_machine.py` (`TranslatorStateMachine`),
- `backend/core/pipeline_manager.py` (`AudioRouterProcessor`, `TextRouterProcessor`),
- `backend/core/session_manager.py` (`SessionManager.add_message`,
  `SessionManager.update_metrics`, `SessionManager._update_average`).

Logging calls, the state-change callback, wall-clock timestamps and uuid
generation are side effects with no bearing on the verified properties and are
omitted from the embedding; everything that touches the observable state is
translated statement by statement.
-/

namespace RealtimeTranslate

/-- States of the per-session state machine (`models/enums.py`, `SessionState`). -/
inductive SessionState
  | disconnected
  | connected
  | user_speaking
  | user_processing
  | partner_listening
  | partner_processing
  | error
deriving DecidableEq, Fintype, Repr

/-- Who is currently speaking (`models/enums.py`, `SpeakerTurn`). -/
inductive SpeakerTurn
  | user
  | partner
deriving DecidableEq, Fintype, Repr

/-- Mutable state of `TranslatorStateMachine` (`backend/core/state_machine.py`):
the fields `_state`, `_ptt_pressed`, `_is_processing`, `_current_speaker`. -/
structure TranslatorStateMachine where
  state : SessionState
  ptt_pressed : Bool
  is_processing : Bool
  current_speaker : Option SpeakerTurn
deriving DecidableEq, Fintype, Repr

namespace TranslatorStateMachine

/-- `__init__`: starts `DISCONNECTED` with all auxiliary fields cleared. -/
def init : TranslatorStateMachine :=
  { state := .disconnected
    ptt_pressed := false
    is_processing := false
    current_speaker := none }

/-- `is_user_turn` property. -/
def is_user_turn (m : TranslatorStateMachine) : Bool :=
  m.ptt_pressed

/-- `is_partner_turn` property. -/
def is_partner_turn (m : TranslatorStateMachine) : Bool :=
  !m.ptt_pressed &&
    (m.state = .partner_listening || m.state = .partner_processing)

/-- `should_enable_vad` property. -/
def should_enable_vad (m : TranslatorStateMachine) : Bool :=
  !m.ptt_pressed && (m.state = .connected || m.state = .partner_listening)

/-- `should_output_audio` property. -/
def should_output_audio (m : TranslatorStateMachine) : Bool :=
  m.state = .user_speaking || m.state = .user_processing

/-- `_transition_to`: sets the state (the early return when the state is
unchanged only skips the logging/callback, the resulting state is the same). -/
def transition_to (m : TranslatorStateMachine) (new_state : SessionState) :
    TranslatorStateMachine :=
  { m with state := new_state }

/-- `connect`: transitions to `CONNECTED`. It touches no other field. -/
def connect (m : TranslatorStateMachine) : TranslatorStateMachine :=
  m.transition_to .connected

/-- `disconnect`: transitions to `DISCONNECTED` and clears the flags. -/
def disconnect (m : TranslatorStateMachine) : TranslatorStateMachine :=
  { m.transition_to .disconnected with
    ptt_pressed := false
    is_processing := false
    current_speaker := none }

/-- `handle_ptt_press`: ignored while disconnected; otherwise records the press,
marks the user as speaker and forces `USER_SPEAKING`. -/
def handle_ptt_press (m : TranslatorStateMachine) : TranslatorStateMachine :=
  if m.state = .disconnected then m
  else
    let m := { m with ptt_pressed := true, current_speaker := some .user }
    if m.state ≠ .user_speaking then m.transition_to .user_speaking else m

/-- `handle_ptt_release`: ignored while disconnected; otherwise clears the
press, and from `USER_SPEAKING` moves to `USER_PROCESSING` (when processing) or
to `PARTNER_LISTENING` clearing the speaker. -/
def handle_ptt_release (m : TranslatorStateMachine) : TranslatorStateMachine :=
  if m.state = .disconnected then m
  else
    let m := { m with ptt_pressed := false }
    if m.state = .user_speaking then
      if m.is_processing then m.transition_to .user_processing
      else { m.transition_to .partner_listening with current_speaker := none }
    else m

/-- `start_user_processing`: sets `is_processing`; keeps `USER_SPEAKING` while
PTT is held, otherwise forces `USER_PROCESSING`. -/
def start_user_processing (m : TranslatorStateMachine) : TranslatorStateMachine :=
  let m := { m with is_processing := true }
  if m.ptt_pressed then { m with state := .user_speaking }
  else m.transition_to .user_processing

/-- `finish_user_processing`: clears `is_processing` and the speaker; from
`USER_SPEAKING`/`USER_PROCESSING` moves to `PARTNER_LISTENING`. -/
def finish_user_processing (m : TranslatorStateMachine) : TranslatorStateMachine :=
  let m := { m with is_processing := false, current_speaker := none }
  if m.state = .user_speaking || m.state = .user_processing then
    m.transition_to .partner_listening
  else m

/-- `start_partner_processing`: only acts when PTT is up and VAD is eligible;
then marks the partner as speaker and moves to `PARTNER_PROCESSING`. -/
def start_partner_processing (m : TranslatorStateMachine) : TranslatorStateMachine :=
  if !m.ptt_pressed && m.should_enable_vad then
    let m := { m with is_processing := true, current_speaker := some .partner }
    m.transition_to .partner_processing
  else m

/-- `finish_partner_processing`: clears `is_processing` and the speaker; from
`PARTNER_PROCESSING` moves back to `PARTNER_LISTENING`. -/
def finish_partner_processing (m : TranslatorStateMachine) : TranslatorStateMachine :=
  let m := { m with is_processing := false, current_speaker := none }
  if m.state = .partner_processing then m.transition_to .partner_listening
  else m

/-- `handle_error`: forces `ERROR` and clears `is_processing` (the speaker and
the PTT flag are left untouched by the source). -/
def handle_error (m : TranslatorStateMachine) : TranslatorStateMachine :=
  { m.transition_to .error with is_processing := false }

/-- `reset`: forces `CONNECTED` and clears every auxiliary field. -/
def reset (_ : TranslatorStateMachine) : TranslatorStateMachine :=
  { state := .connected
    ptt_pressed := false
    is_processing := false
    current_speaker := none }

end TranslatorStateMachine

/-- The public mutating operations of `TranslatorStateMachine`; per the spec
these are the only paths that may change the machine. -/
inductive Event
  | connect
  | disconnect
  | ptt_press
  | ptt_release
  | start_user_processing
  | finish_user_processing
  | start_partner_processing
  | finish_partner_processing
  | handle_error
  | reset
deriving DecidableEq, Fintype, Repr

/-- Dispatch one public operation. -/
def step (m : TranslatorStateMachine) : Event → TranslatorStateMachine
  | .connect => m.connect
  | .disconnect => m.disconnect
  | .ptt_press => m.handle_ptt_press
  | .ptt_release => m.handle_ptt_release
  | .start_user_processing => m.start_user_processing
  | .finish_user_processing => m.finish_user_processing
  | .start_partner_processing => m.start_partner_processing
  | .finish_partner_processing => m.finish_partner_processing
  | .handle_error => m.handle_error
  | .reset => m.reset

/-- Run a sequence of public operations from the initial machine. -/
def run (es : List Event) : TranslatorStateMachine :=
  es.foldl step TranslatorStateMachine.init

/-- A machine state is reachable when some sequence of public operations
produces it from the freshly constructed machine. -/
def Reachable (m : TranslatorStateMachine) : Prop :=
  ∃ es : List Event, run es = m

/-- Boolean invariant: the current speaker is cleared whenever the machine sits
in `disconnected` or `partner_listening`. -/
def speaker_clear_inv (m : TranslatorStateMachine) : Bool :=
  !(m.state = SessionState.disconnected || m.state = SessionState.partner_listening)
    || m.current_speaker = none

lemma speaker_clear_inv_init : speaker_clear_inv TranslatorStateMachine.init = true := by
  decide

lemma speaker_clear_inv_step (m : TranslatorStateMachine) (e : Event)
    (h : speaker_clear_inv m = true) : speaker_clear_inv (step m e) = true := by
  revert m e
  decide

lemma speaker_clear_inv_foldl (es : List Event) (m : TranslatorStateMachine)
    (h : speaker_clear_inv m = true) : speaker_clear_inv (es.foldl step m) = true := by
  induction es generalizing m with
  | nil => exact h
  | cons e es ih => exact ih (step m e) (speaker_clear_inv_step m e h)

lemma speaker_clear_inv_reachable (m : TranslatorStateMachine) (hm : Reachable m) :
    speaker_clear_inv m = true := by
  obtain ⟨es, rfl⟩ := hm
  exact speaker_clear_inv_foldl es TranslatorStateMachine.init speaker_clear_inv_init

/-- C2: on every reachable machine state, `should_enable_vad` and `is_user_turn`
are never simultaneously true (`should_enable_vad` requires PTT to be released
while `is_user_turn` is exactly the PTT flag). -/
theorem vad_ptt_mutual_exclusion (m : TranslatorStateMachine) (_hm : Reachable m) :
    ¬(m.should_enable_vad = true ∧ m.is_user_turn = true) := by
  rintro ⟨hv, hu⟩
  simp [TranslatorStateMachine.should_enable_vad, TranslatorStateMachine.is_user_turn] at hv hu
  simp [hu] at hv

/-- Witness for C2 at the initial machine, which is reachable by the empty
sequence of operations. -/
theorem vad_ptt_mutual_exclusion_witness :
    Reachable TranslatorStateMachine.init ∧
      ¬(TranslatorStateMachine.init.should_enable_vad = true ∧
        TranslatorStateMachine.init.is_user_turn = true) :=
  ⟨⟨[], rfl⟩, vad_ptt_mutual_exclusion TranslatorStateMachine.init ⟨[], rfl⟩⟩

/-- C3: from any non-disconnected state, `handle_ptt_press` yields
`user_speaking`, speaker `user`, `ptt_pressed = true`, and is idempotent; from
`disconnected` it changes nothing. -/
theorem ptt_press_forces_user_speaking (m : TranslatorStateMachine) :
    (m.state ≠ SessionState.disconnected →
      m.handle_ptt_press.state = SessionState.user_speaking ∧
      m.handle_ptt_press.current_speaker = some SpeakerTurn.user ∧
      m.handle_ptt_press.ptt_pressed = true ∧
      m.handle_ptt_press.handle_ptt_press = m.handle_ptt_press) ∧
    (m.state = SessionState.disconnected → m.handle_ptt_press = m) := by
  revert m
  decide

/-- Witness for C3: pressing after `connect` lands in `user_speaking`; pressing
on the initial (disconnected) machine changes nothing. -/
theorem ptt_press_forces_user_speaking_witness :
    TranslatorStateMachine.init.connect.handle_ptt_press.state =
        SessionState.user_speaking ∧
      TranslatorStateMachine.init.handle_ptt_press = TranslatorStateMachine.init :=
  ⟨((ptt_press_forces_user_speaking TranslatorStateMachine.init.connect).1
      (by decide)).1,
    (ptt_press_forces_user_speaking TranslatorStateMachine.init).2 (by decide)⟩

/-- C4: `handle_ptt_release` is a no-op from `disconnected`; otherwise it clears
`ptt_pressed`, from `user_speaking` it moves to `user_processing` when
`is_processing` holds and otherwise to `partner_listening` clearing the
speaker, and from every other state it only updates `ptt_pressed`. -/
theorem ptt_release_routes (m : TranslatorStateMachine) :
    (m.state = SessionState.disconnected → m.handle_ptt_release = m) ∧
    (m.state ≠ SessionState.disconnected →
      m.handle_ptt_release.ptt_pressed = false ∧
      (m.state = SessionState.user_speaking → m.is_processing = true →
        m.handle_ptt_release.state = SessionState.user_processing) ∧
      (m.state = SessionState.user_speaking → m.is_processing = false →
        m.handle_ptt_release.state = SessionState.partner_listening ∧
        m.handle_ptt_release.current_speaker = none) ∧
      (m.state ≠ SessionState.user_speaking →
        m.handle_ptt_release = { m with ptt_pressed := false })) := by
  revert m
  decide

/-- Witness for C4: releasing right after a press (no processing started) from
`user_speaking` lands in `partner_listening` with the speaker cleared, and the
release is a no-op on the initial disconnected machine. -/
theorem ptt_release_routes_witness :
    (run [Event.connect, Event.ptt_press]).handle_ptt_release.state =
        SessionState.partner_listening ∧
      TranslatorStateMachine.init.handle_ptt_release = TranslatorStateMachine.init :=
  ⟨(((((ptt_release_routes (run [Event.connect, Event.ptt_press])).2
        (by decide)).2).2).1 (by decide) (by decide)).1,
    (ptt_release_routes TranslatorStateMachine.init).1 (by decide)⟩

/-- C5 counterexample: after `connect; ptt_press; handle_error` the machine is
reachable, sits in `error`, yet `current_speaker` is still `user` (the source's
`handle_error` never clears the speaker); likewise `connect; ptt_press; connect`
reaches `connected` with the speaker still set. -/
theorem current_speaker_only_when_active_counterexample :
    Reachable (run [Event.connect, Event.ptt_press, Event.handle_error]) ∧
      (run [Event.connect, Event.ptt_press, Event.handle_error]).state =
        SessionState.error ∧
      (run [Event.connect, Event.ptt_press, Event.handle_error]).current_speaker =
        some SpeakerTurn.user ∧
      Reachable (run [Event.connect, Event.ptt_press, Event.connect]) ∧
      (run [Event.connect, Event.ptt_press, Event.connect]).state =
        SessionState.connected ∧
      (run [Event.connect, Event.ptt_press, Event.connect]).current_speaker =
        some SpeakerTurn.user :=
  ⟨⟨_, rfl⟩, by decide, by decide, ⟨_, rfl⟩, by decide, by decide⟩

/-- C5 amended: on every reachable state, `current_speaker` is `None` in
`disconnected` and `partner_listening`; it may remain set not only in
`user_speaking`/`user_processing`/`partner_processing` but also in `connected`
and `error` (neither `handle_error` nor `connect` clears it). -/
theorem current_speaker_only_when_active (m : TranslatorStateMachine)
    (hm : Reachable m)
    (hs : m.state = SessionState.disconnected ∨
      m.state = SessionState.partner_listening) :
    m.current_speaker = none := by
  have h := speaker_clear_inv_reachable m hm
  simp [speaker_clear_inv] at h
  rcases h with ⟨h1, h2⟩ | h
  · rcases hs with hs | hs
    · exact absurd hs h1
    · exact absurd hs h2
  · exact h

/-- Witness for C5 (amended) at the initial machine. -/
theorem current_speaker_only_when_active_witness :
    TranslatorStateMachine.init.current_speaker = none :=
  current_speaker_only_when_active TranslatorStateMachine.init ⟨[], rfl⟩
    (Or.inl rfl)

/-- C6 counterexample: from the reachable state `user_speaking` (past
`disconnected`), `connect` is not a no-op — it changes the state to
`connected` — and it resets none of `ptt_pressed`, `is_processing`,
`current_speaker`. -/
theorem connect_noop_counterexample :
    (run [Event.connect, Event.ptt_press]).state = SessionState.user_speaking ∧
      (run [Event.connect, Event.ptt_press]).connect.state =
        SessionState.connected ∧
      (run [Event.connect, Event.ptt_press]).connect.ptt_pressed = true ∧
      (run [Event.connect, Event.ptt_press]).connect.current_speaker =
        some SpeakerTurn.user := by
  decide

/-- C6 amended: `connect` always sets the state to `connected` (from any
state, so it is only trivially a no-op when already `connected`) and leaves
`ptt_pressed`, `is_processing` and `current_speaker` unchanged rather than
resetting them. -/
theorem connect_transitions_only (m : TranslatorStateMachine) :
    m.connect.state = SessionState.connected ∧
      m.connect.ptt_pressed = m.ptt_pressed ∧
      m.connect.is_processing = m.is_processing ∧
      m.connect.current_speaker = m.current_speaker := by
  revert m
  decide

/-- Frames flowing through the pipeline (`pipecat` frame classes used by
`backend/core/pipeline_manager.py`). `system` stands for the remaining frame
classes (`StartFrame`, `EndFrame`, `CancelFrame`, ...) that the routers hand to
their parent class. -/
inductive Frame
  | audioRaw (audio : List ℕ) (sample_rate : ℕ) (num_channels : ℕ)
  | userStartedSpeaking
  | userStoppedSpeaking
  | vadUserStartedSpeaking
  | vadUserStoppedSpeaking
  | text (t : String)
  | system
deriving DecidableEq, Repr

/-- Frame direction in the pipeline. -/
inductive FrameDirection
  | downstream
  | upstream
deriving DecidableEq, Fintype, Repr

/-- What `AudioRouterProcessor.process_frame` does with one frame. -/
inductive RouterAction
  | push (f : Frame)
  | drop
  | toSuper
deriving DecidableEq, Repr

/-- The isinstance check opening `AudioRouterProcessor.process_frame`: audio
chunks and the four speaking frames are the audio-path frames. -/
def isAudioPathFrame : Frame → Bool
  | .audioRaw _ _ _ => true
  | .userStartedSpeaking => true
  | .userStoppedSpeaking => true
  | .vadUserStartedSpeaking => true
  | .vadUserStoppedSpeaking => true
  | _ => false

namespace AudioRouterProcessor

/-- `AudioRouterProcessor.process_frame` (`backend/core/pipeline_manager.py`):
non-audio frames go to the parent class; non-downstream frames are pushed
unchanged; started-speaking frames are always pushed; stopped-speaking frames
are dropped while `is_user_turn`; audio chunks are pushed while `is_user_turn`
or `should_enable_vad` and dropped otherwise. The throttled logging counter
`_frame_count` only feeds log output and is omitted. -/
def process_frame (m : TranslatorStateMachine) (frame : Frame)
    (direction : FrameDirection) : RouterAction :=
  if !isAudioPathFrame frame then .toSuper
  else if direction ≠ FrameDirection.downstream then .push frame
  else
    match frame with
    | .userStartedSpeaking => .push frame
    | .vadUserStartedSpeaking => .push frame
    | .userStoppedSpeaking =>
        if m.is_user_turn then .drop else .push frame
    | .vadUserStoppedSpeaking =>
        if m.is_user_turn then .drop else .push frame
    | .audioRaw _ _ _ =>
        if m.is_user_turn then .push frame
        else if m.should_enable_vad then .push frame
        else .drop
    | _ => .toSuper

end AudioRouterProcessor

/-- Observable effect of `TextRouterProcessor.process_frame` on one text frame:
whether the frame was pushed downstream (towards the TTS processor) and which
`(text, speaker)` pair was emitted to the text-output callback, if any. -/
structure TextRouteResult where
  pushed_downstream : Bool
  emitted_text : Option (String × SpeakerTurn)
deriving DecidableEq, Repr

namespace TextRouterProcessor

/-- `TextRouterProcessor.process_frame` (`backend/core/pipeline_manager.py`)
restricted to `TextFrame`s (other frames go to the parent class): while
`should_output_audio` the frame is pushed downstream to TTS and the text is
also emitted when a speaker is set; otherwise nothing is pushed and the text is
emitted only when a speaker is set. -/
def process_frame (m : TranslatorStateMachine) (text : String) :
    TextRouteResult :=
  if m.should_output_audio then
    { pushed_downstream := true
      emitted_text := m.current_speaker.map fun s => (text, s) }
  else
    { pushed_downstream := false
      emitted_text := m.current_speaker.map fun s => (text, s) }

end TextRouterProcessor

/-- C1: for downstream audio-path frames, the router always pushes
started-speaking events; pushes stopped-speaking events exactly when
`is_user_turn` is false (dropping them during the user's turn); and pushes a
raw audio chunk exactly when `is_user_turn` or `should_enable_vad` holds,
dropping it otherwise. -/
theorem audio_router_policy (m : TranslatorStateMachine) (a : List ℕ)
    (r c : ℕ) :
    AudioRouterProcessor.process_frame m Frame.userStartedSpeaking
        FrameDirection.downstream = RouterAction.push Frame.userStartedSpeaking ∧
    AudioRouterProcessor.process_frame m Frame.vadUserStartedSpeaking
        FrameDirection.downstream =
      RouterAction.push Frame.vadUserStartedSpeaking ∧
    (m.is_user_turn = true →
      AudioRouterProcessor.process_frame m Frame.userStoppedSpeaking
          FrameDirection.downstream = RouterAction.drop ∧
      AudioRouterProcessor.process_frame m Frame.vadUserStoppedSpeaking
          FrameDirection.downstream = RouterAction.drop) ∧
    (m.is_user_turn = false →
      AudioRouterProcessor.process_frame m Frame.userStoppedSpeaking
          FrameDirection.downstream =
        RouterAction.push Frame.userStoppedSpeaking ∧
      AudioRouterProcessor.process_frame m Frame.vadUserStoppedSpeaking
          FrameDirection.downstream =
        RouterAction.push Frame.vadUserStoppedSpeaking) ∧
    (AudioRouterProcessor.process_frame m (Frame.audioRaw a r c)
          FrameDirection.downstream = RouterAction.push (Frame.audioRaw a r c) ↔
      m.is_user_turn = true ∨ m.should_enable_vad = true) ∧
    (m.is_user_turn = false → m.should_enable_vad = false →
      AudioRouterProcessor.process_frame m (Frame.audioRaw a r c)
          FrameDirection.downstream = RouterAction.drop) := by
  cases hu : m.is_user_turn <;> cases hv : m.should_enable_vad <;>
    simp [AudioRouterProcessor.process_frame, isAudioPathFrame, hu, hv]

/-- Witness for C1 on the initial machine (PTT up, VAD ineligible while
disconnected) and a concrete audio chunk: the stop event passes, the chunk is
dropped. -/
theorem audio_router_policy_witness :
    TranslatorStateMachine.init.is_user_turn = false ∧
      TranslatorStateMachine.init.should_enable_vad = false ∧
      AudioRouterProcessor.process_frame TranslatorStateMachine.init
          Frame.userStoppedSpeaking FrameDirection.downstream =
        RouterAction.push Frame.userStoppedSpeaking ∧
      AudioRouterProcessor.process_frame TranslatorStateMachine.init
          (Frame.audioRaw [0] 16000 1) FrameDirection.downstream =
        RouterAction.drop :=
  ⟨by decide, by decide,
    ((audio_router_policy TranslatorStateMachine.init [0] 16000 1).2.2.2.1
        (by decide)).1,
    (audio_router_policy TranslatorStateMachine.init [0] 16000 1).2.2.2.2.2
      (by decide) (by decide)⟩

/-- C7 counterexample: `connect; start_user_processing` reaches
`user_processing` with `current_speaker = None` and `should_output_audio`
true; a text frame arriving there is still pushed downstream to the synthesis
stage (only the text-output emission is skipped), so the text is not "routed
nowhere". -/
theorem text_drop_without_speaker_counterexample :
    Reachable (run [Event.connect, Event.start_user_processing]) ∧
      (run [Event.connect, Event.start_user_processing]).current_speaker =
        none ∧
      (run [Event.connect, Event.start_user_processing]).should_output_audio =
        true ∧
      (TextRouterProcessor.process_frame
          (run [Event.connect, Event.start_user_processing]) "hola").pushed_downstream =
        true ∧
      (TextRouterProcessor.process_frame
          (run [Event.connect, Event.start_user_processing]) "hola").emitted_text =
        none :=
  ⟨⟨_, rfl⟩, by decide, by decide, by decide, by decide⟩

/-- C7 amended: when `current_speaker` is unset, the text-output sink never
receives the text; but the frame is still pushed downstream to the synthesis
stage exactly when `should_output_audio` is true, so the text only goes fully
unrouted in the states where `should_output_audio` is false. -/
theorem text_drop_without_speaker (m : TranslatorStateMachine) (text : String)
    (hs : m.current_speaker = none) :
    (TextRouterProcessor.process_frame m text).emitted_text = none ∧
      (TextRouterProcessor.process_frame m text).pushed_downstream =
        m.should_output_audio := by
  cases ho : m.should_output_audio <;>
    simp [TextRouterProcessor.process_frame, ho, hs]

/-- Witness for C7 (amended) on the initial machine. -/
theorem text_drop_without_speaker_witness :
    TranslatorStateMachine.init.current_speaker = none ∧
      (TextRouterProcessor.process_frame TranslatorStateMachine.init
          "hola").emitted_text = none :=
  ⟨by decide,
    (text_drop_without_speaker TranslatorStateMachine.init "hola" (by decide)).1⟩

/-- Supported language codes (`models/enums.py`, `LanguageCode`). -/
inductive LanguageCode
  | ENGLISH | SPANISH | FRENCH | GERMAN | ITALIAN | PORTUGUESE | RUSSIAN
  | JAPANESE | KOREAN | CHINESE | ARABIC | HINDI | DUTCH | POLISH | TURKISH
  | VIETNAMESE | INDONESIAN | THAI | SWEDISH | DANISH | NORWEGIAN | FINNISH
  | CZECH | GREEK | HEBREW | UKRAINIAN
deriving DecidableEq, Fintype, Repr

/-- Chat message stored in session history (`models/session.py`, `Message`).
The wall-clock `timestamp` field is omitted from the embedding. -/
structure Message where
  id : String
  session_id : String
  speaker : SpeakerTurn
  original_text : String
  translated_text : Option String
  source_language : LanguageCode
  target_language : Option LanguageCode
  audio_url : Option String
deriving DecidableEq, Repr

/-- Active session data container (`models/session.py`, `SessionData`). The
wall-clock `created_at`/`last_activity` fields are omitted from the
embedding. -/
structure SessionData where
  session_id : String
  state : SessionState
  home_language : LanguageCode
  target_language : LanguageCode
  user_id : Option String
  current_speaker : Option SpeakerTurn
  is_processing : Bool
  messages : List Message
  total_user_turns : ℕ
  total_partner_turns : ℕ
  total_processing_time_ms : ℤ
deriving DecidableEq, Repr

/-- Session performance metrics (`models/session.py`, `SessionMetrics`).
The source's float fields are modelled over ℚ. -/
structure SessionMetrics where
  session_id : String
  avg_stt_latency : ℚ
  avg_translation_latency : ℚ
  avg_tts_latency : ℚ
  avg_total_latency : ℚ
  total_turns : ℕ
  successful_turns : ℕ
  failed_turns : ℕ
  stt_errors : ℕ
  translation_errors : ℕ
  tts_errors : ℕ
  avg_audio_level : ℚ
  silence_detected_count : ℕ
deriving DecidableEq, Repr

/-- The pydantic defaults of `SessionMetrics`: every counter and average is
zero for a freshly created session. -/
def fresh_metrics (sid : String) : SessionMetrics :=
  { session_id := sid
    avg_stt_latency := 0
    avg_translation_latency := 0
    avg_tts_latency := 0
    avg_total_latency := 0
    total_turns := 0
    successful_turns := 0
    failed_turns := 0
    stt_errors := 0
    translation_errors := 0
    tts_errors := 0
    avg_audio_level := 0
    silence_detected_count := 0 }

namespace SessionManager

/-- `SessionManager._update_average`: incremental running-average update. -/
def update_average (current_avg : ℚ) (new_value : ℚ) (count : ℕ) : ℚ :=
  (current_avg * ((count : ℚ) - 1) + new_value) / count

/-- `SessionManager.add_message` on an existing session (the source returns
`None` when the session id is unknown; the lookup is resolved here, and the
generated uuid is passed in as `new_id`). Resolves default languages by
speaker, appends the message, caps the history at the last 50 entries and
bumps the per-speaker turn counter. The `last_activity` refresh is a wall
clock write and is omitted. -/
def add_message (session : SessionData) (new_id : String) (speaker : SpeakerTurn)
    (original_text : String) (translated_text : Option String)
    (source_language target_language : Option LanguageCode) :
    SessionData × Message :=
  let source_language :=
    match speaker with
    | .user => source_language.getD session.home_language
    | .partner => source_language.getD session.target_language
  let target_language :=
    match speaker with
    | .user => target_language.getD session.target_language
    | .partner => target_language.getD session.home_language
  let message : Message :=
    { id := new_id
      session_id := session.session_id
      speaker := speaker
      original_text := original_text
      translated_text := translated_text
      source_language := source_language
      target_language := some target_language
      audio_url := none }
  let messages := session.messages ++ [message]
  let messages :=
    if messages.length > 50 then messages.drop (messages.length - 50)
    else messages
  let session :=
    { session with
      messages := messages
      total_user_turns :=
        if speaker = .user then session.total_user_turns + 1
        else session.total_user_turns
      total_partner_turns :=
        if speaker = .partner then session.total_partner_turns + 1
        else session.total_partner_turns }
  (session, message)

/-- `SessionManager.update_metrics` on an existing session (the source returns
early when the metrics or session lookup fails). Always bumps `total_turns`;
on success bumps `successful_turns` and folds each supplied latency into the
matching running average, folding the positive latency sum into the aggregate
average and the session's cumulative processing time (`int(total)` truncates,
which on a positive total is the floor); on failure bumps `failed_turns` and
the error counter selected by `error_type`. -/
def update_metrics (metrics : SessionMetrics) (session : SessionData)
    (stt_latency translation_latency tts_latency : Option ℚ)
    (success : Bool) (error_type : Option String) :
    SessionMetrics × SessionData :=
  let metrics := { metrics with total_turns := metrics.total_turns + 1 }
  if success then
    let metrics := { metrics with successful_turns := metrics.successful_turns + 1 }
    let metrics :=
      match stt_latency with
      | some x =>
          { metrics with
            avg_stt_latency :=
              update_average metrics.avg_stt_latency x metrics.total_turns }
      | none => metrics
    let metrics :=
      match translation_latency with
      | some x =>
          { metrics with
            avg_translation_latency :=
              update_average metrics.avg_translation_latency x metrics.total_turns }
      | none => metrics
    let metrics :=
      match tts_latency with
      | some x =>
          { metrics with
            avg_tts_latency :=
              update_average metrics.avg_tts_latency x metrics.total_turns }
      | none => metrics
    let total :=
      stt_latency.getD 0 + translation_latency.getD 0 + tts_latency.getD 0
    if total > 0 then
      let metrics :=
        { metrics with
          avg_total_latency :=
            update_average metrics.avg_total_latency total metrics.total_turns }
      let session :=
        { session with
          total_processing_time_ms :=
            session.total_processing_time_ms + Rat.floor total }
      (metrics, session)
    else (metrics, session)
  else
    let metrics := { metrics with failed_turns := metrics.failed_turns + 1 }
    let metrics :=
      if error_type = some "stt" then
        { metrics with stt_errors := metrics.stt_errors + 1 }
      else if error_type = some "translation" then
        { metrics with translation_errors := metrics.translation_errors + 1 }
      else if error_type = some "tts" then
        { metrics with tts_errors := metrics.tts_errors + 1 }
      else metrics
    (metrics, session)

end SessionManager

/-- Arguments of one `add_message` call (the generated uuid passed in as
`new_id`). -/
structure AddCall where
  new_id : String
  speaker : SpeakerTurn
  original_text : String
  translated_text : Option String
  source_language : Option LanguageCode
  target_language : Option LanguageCode
deriving DecidableEq, Repr

/-- Apply a sequence of `add_message` calls to one session. -/
def run_add (session : SessionData) (calls : List AddCall) : SessionData :=
  calls.foldl
    (fun s c =>
      (SessionManager.add_message s c.new_id c.speaker c.original_text
        c.translated_text c.source_language c.target_language).1) session

lemma drop_one_append {α : Type} (l : List α) (x : α) (h : l ≠ []) :
    (l ++ [x]).drop 1 = l.drop 1 ++ [x] := by
  cases l with
  | nil => exact absurd rfl h
  | cons a t => simp

lemma append_cap_le {α : Type} (l : List α) (x : α) :
    (if (l ++ [x]).length > 50 then (l ++ [x]).drop ((l ++ [x]).length - 50)
      else l ++ [x]).length ≤ 50 := by
  split
  · next hgt =>
      simp only [List.length_drop, List.length_append] at hgt ⊢
      omega
  · next hle =>
      simp only [List.length_append] at hle ⊢
      omega

lemma append_cap_full {α : Type} (l : List α) (x : α) (h : l.length = 50) :
    (if (l ++ [x]).length > 50 then (l ++ [x]).drop ((l ++ [x]).length - 50)
      else l ++ [x]) = l.drop 1 ++ [x] := by
  have hlen : (l ++ [x]).length = 51 := by simp [h]
  rw [hlen, if_pos (by omega : (51 : ℕ) > 50)]
  exact drop_one_append l x (by
    intro hnil
    rw [hnil] at h
    simp at h)

lemma append_cap_not_full {α : Type} (l : List α) (x : α) (h : l.length < 50) :
    (if (l ++ [x]).length > 50 then (l ++ [x]).drop ((l ++ [x]).length - 50)
      else l ++ [x]) = l ++ [x] := by
  rw [if_neg]
  simp only [List.length_append, List.length_cons, List.length_nil]
  omega

lemma add_message_length (s : SessionData) (i : String) (spk : SpeakerTurn)
    (txt : String) (tr : Option String) (sl tl : Option LanguageCode) :
    ((SessionManager.add_message s i spk txt tr sl tl).1.messages).length ≤ 50 := by
  simp only [SessionManager.add_message]
  exact append_cap_le s.messages _

lemma run_add_length (calls : List AddCall) (s : SessionData)
    (h : s.messages.length ≤ 50) : (run_add s calls).messages.length ≤ 50 := by
  induction calls generalizing s with
  | nil => exact h
  | cons c cs ih =>
      exact ih _ (add_message_length s c.new_id c.speaker c.original_text
        c.translated_text c.source_language c.target_language)

lemma add_message_full (s : SessionData) (i : String) (spk : SpeakerTurn)
    (txt : String) (tr : Option String) (sl tl : Option LanguageCode)
    (h : s.messages.length = 50) :
    (SessionManager.add_message s i spk txt tr sl tl).1.messages =
      s.messages.drop 1 ++
        [(SessionManager.add_message s i spk txt tr sl tl).2] := by
  simp only [SessionManager.add_message]
  exact append_cap_full s.messages _ h

lemma add_message_not_full (s : SessionData) (i : String) (spk : SpeakerTurn)
    (txt : String) (tr : Option String) (sl tl : Option LanguageCode)
    (h : s.messages.length < 50) :
    (SessionManager.add_message s i spk txt tr sl tl).1.messages =
      s.messages ++ [(SessionManager.add_message s i spk txt tr sl tl).2] := by
  simp only [SessionManager.add_message]
  exact append_cap_not_full s.messages _ h

/-- C8: under any sequence of `add_message` calls a session's history stays at
50 entries or fewer; a call on a full (50-entry) history drops exactly the
oldest entry and appends the new message at the tail, while a call on a
shorter history just appends — so eviction is FIFO and the append order of the
surviving entries is preserved. -/
theorem message_history_capped :
    (∀ (s : SessionData) (calls : List AddCall),
      s.messages.length ≤ 50 → (run_add s calls).messages.length ≤ 50) ∧
    (∀ (s : SessionData) (i : String) (spk : SpeakerTurn) (txt : String)
        (tr : Option String) (sl tl : Option LanguageCode),
      s.messages.length = 50 →
        (SessionManager.add_message s i spk txt tr sl tl).1.messages =
          s.messages.drop 1 ++
            [(SessionManager.add_message s i spk txt tr sl tl).2]) ∧
    (∀ (s : SessionData) (i : String) (spk : SpeakerTurn) (txt : String)
        (tr : Option String) (sl tl : Option LanguageCode),
      s.messages.length < 50 →
        (SessionManager.add_message s i spk txt tr sl tl).1.messages =
          s.messages ++ [(SessionManager.add_message s i spk txt tr sl tl).2]) :=
  ⟨fun s calls h => run_add_length calls s h,
    fun s i spk txt tr sl tl h => add_message_full s i spk txt tr sl tl h,
    fun s i spk txt tr sl tl h => add_message_not_full s i spk txt tr sl tl h⟩

/-- A concrete message for witnesses. -/
def sample_message : Message :=
  { id := "m0"
    session_id := "s"
    speaker := .user
    original_text := "hello"
    translated_text := none
    source_language := .ENGLISH
    target_language := some .SPANISH
    audio_url := none }

/-- A concrete freshly created session (empty history) for witnesses. -/
def sample_session : SessionData :=
  { session_id := "s"
    state := .connected
    home_language := .ENGLISH
    target_language := .SPANISH
    user_id := none
    current_speaker := none
    is_processing := false
    messages := []
    total_user_turns := 0
    total_partner_turns := 0
    total_processing_time_ms := 0 }

/-- The sample session with a full 50-entry history. -/
def full_session : SessionData :=
  { sample_session with messages := List.replicate 50 sample_message }

/-- A concrete `add_message` call for witnesses. -/
def sample_call : AddCall :=
  { new_id := "m1"
    speaker := .user
    original_text := "hi"
    translated_text := none
    source_language := none
    target_language := none }

/-- Witness for C8 on concrete sessions: an empty history stays within the
cap, a full history evicts its head, a short history just appends. -/
theorem message_history_capped_witness :
    sample_session.messages.length ≤ 50 ∧
      (run_add sample_session [sample_call]).messages.length ≤ 50 ∧
      full_session.messages.length = 50 ∧
      (SessionManager.add_message full_session "m51" .user "hi" none none
            none).1.messages =
        full_session.messages.drop 1 ++
          [(SessionManager.add_message full_session "m51" .user "hi" none none
              none).2] ∧
      sample_session.messages.length < 50 ∧
      (SessionManager.add_message sample_session "m1" .user "hi" none none
            none).1.messages =
        sample_session.messages ++
          [(SessionManager.add_message sample_session "m1" .user "hi" none none
              none).2] :=
  ⟨by decide,
    message_history_capped.1 sample_session [sample_call] (by decide),
    by decide,
    message_history_capped.2.1 full_session "m51" .user "hi" none none none
      (by decide),
    by decide,
    message_history_capped.2.2 sample_session "m1" .user "hi" none none none
      (by decide)⟩

/-- One successful `update_metrics` call supplying only an stt latency of `x`
(the session component is irrelevant to the metrics fields and fixed to the
sample session). -/
def record_success (x : ℚ) (M : SessionMetrics) : SessionMetrics :=
  (SessionManager.update_metrics M sample_session (some x) none none true none).1

lemma record_success_total (x : ℚ) (M : SessionMetrics) :
    (record_success x M).total_turns = M.total_turns + 1 := by
  simp only [record_success, SessionManager.update_metrics]
  repeat' split
  all_goals rfl

lemma record_success_avg (x : ℚ) (M : SessionMetrics) :
    (record_success x M).avg_stt_latency =
      SessionManager.update_average M.avg_stt_latency x (M.total_turns + 1) := by
  simp only [record_success, SessionManager.update_metrics]
  repeat' split
  all_goals first | rfl | simp_all

lemma record_success_iterate_total (x : ℚ) (n : ℕ) :
    ((record_success x)^[n] (fresh_metrics "s")).total_turns = n := by
  induction n with
  | zero => rfl
  | succ n ih => rw [Function.iterate_succ_apply', record_success_total, ih]

lemma record_success_iterate_avg (x : ℚ) (n : ℕ) (hn : 1 ≤ n) :
    ((record_success x)^[n] (fresh_metrics "s")).avg_stt_latency = x := by
  induction n with
  | zero => omega
  | succ n ih =>
      rw [Function.iterate_succ_apply', record_success_avg,
        record_success_iterate_total]
      rcases Nat.eq_zero_or_pos n with h0 | hpos
      · subst h0
        simp [SessionManager.update_average, Function.iterate_zero]
      · rw [ih hpos]
        unfold SessionManager.update_average
        have hne : ((n : ℚ) + 1) ≠ 0 := by positivity
        push_cast
        field_simp
        ring

/-- C9: on a successful call, each supplied stage's running average is updated
by the incremental mean formula with `n` the post-increment total-turn count;
hence `n ≥ 1` successful calls with fixed stt latency `x` from fresh metrics
leave the stt average exactly at `x`; and a failure call leaves all four
latency averages unchanged. -/
theorem latency_average_formula :
    (∀ (M : SessionMetrics) (S : SessionData) (stt tr tts : Option ℚ) (x : ℚ),
      stt = some x →
      (SessionManager.update_metrics M S stt tr tts true none).1.avg_stt_latency =
        SessionManager.update_average M.avg_stt_latency x (M.total_turns + 1)) ∧
    (∀ (M : SessionMetrics) (S : SessionData) (stt tr tts : Option ℚ) (x : ℚ),
      tr = some x →
      (SessionManager.update_metrics M S stt tr tts true
          none).1.avg_translation_latency =
        SessionManager.update_average M.avg_translation_latency x
          (M.total_turns + 1)) ∧
    (∀ (M : SessionMetrics) (S : SessionData) (stt tr tts : Option ℚ) (x : ℚ),
      tts = some x →
      (SessionManager.update_metrics M S stt tr tts true none).1.avg_tts_latency =
        SessionManager.update_average M.avg_tts_latency x (M.total_turns + 1)) ∧
    (∀ (x : ℚ) (n : ℕ), 1 ≤ n →
      ((record_success x)^[n] (fresh_metrics "s")).avg_stt_latency = x) ∧
    (∀ (M : SessionMetrics) (S : SessionData) (stt tr tts : Option ℚ)
        (et : Option String),
      (SessionManager.update_metrics M S stt tr tts false et).1.avg_stt_latency =
          M.avg_stt_latency ∧
        (SessionManager.update_metrics M S stt tr tts false
            et).1.avg_translation_latency = M.avg_translation_latency ∧
        (SessionManager.update_metrics M S stt tr tts false et).1.avg_tts_latency =
          M.avg_tts_latency ∧
        (SessionManager.update_metrics M S stt tr tts false
            et).1.avg_total_latency = M.avg_total_latency) := by
  refine ⟨?_, ?_, ?_, ?_, ?_⟩
  · intro M S stt tr tts x hx
    subst hx
    cases tr <;> cases tts <;> simp only [SessionManager.update_metrics] <;>
      (repeat' split) <;> first | rfl | simp_all
  · intro M S stt tr tts x hx
    subst hx
    cases stt <;> cases tts <;> simp only [SessionManager.update_metrics] <;>
      (repeat' split) <;> first | rfl | simp_all
  · intro M S stt tr tts x hx
    subst hx
    cases stt <;> cases tr <;> simp only [SessionManager.update_metrics] <;>
      (repeat' split) <;> first | rfl | simp_all
  · exact fun x n hn => record_success_iterate_avg x n hn
  · intro M S stt tr tts et
    simp only [SessionManager.update_metrics]
    refine ⟨?_, ?_, ?_, ?_⟩ <;> (repeat' split) <;> first | rfl | simp_all

/-- Witness for C9: three successful calls with stt latency 7 from fresh
metrics leave the stt average at 7; a concrete call with all three latencies
supplied updates each average by the formula; a concrete failure call keeps
the fresh averages at zero. -/
theorem latency_average_formula_witness :
    ((record_success 7)^[3] (fresh_metrics "s")).avg_stt_latency = 7 ∧
      (SessionManager.update_metrics (fresh_metrics "s") sample_session (some 7)
          (some 8) (some 9) true none).1.avg_stt_latency =
        SessionManager.update_average 0 7 1 ∧
      (SessionManager.update_metrics (fresh_metrics "s") sample_session (some 7)
          (some 8) (some 9) false (some "stt")).1.avg_stt_latency = 0 :=
  ⟨latency_average_formula.2.2.2.1 7 3 (by decide),
    latency_average_formula.1 (fresh_metrics "s") sample_session (some 7)
      (some 8) (some 9) 7 rfl,
    (latency_average_formula.2.2.2.2 (fresh_metrics "s") sample_session (some 7)
        (some 8) (some 9) (some "stt")).1⟩

/-- Arguments of one `update_metrics` call. -/
structure MetricsCall where
  stt_latency : Option ℚ
  translation_latency : Option ℚ
  tts_latency : Option ℚ
  success : Bool
  error_type : Option String

/-- Apply a sequence of `update_metrics` calls to one metrics/session pair. -/
def run_metrics (M : SessionMetrics) (S : SessionData)
    (calls : List MetricsCall) : SessionMetrics × SessionData :=
  calls.foldl
    (fun p c =>
      SessionManager.update_metrics p.1 p.2 c.stt_latency c.translation_latency
        c.tts_latency c.success c.error_type) (M, S)

lemma update_metrics_total (M : SessionMetrics) (S : SessionData)
    (stt tr tts : Option ℚ) (success : Bool) (et : Option String) :
    (SessionManager.update_metrics M S stt tr tts success et).1.total_turns =
      M.total_turns + 1 := by
  cases success <;> cases stt <;> cases tr <;> cases tts <;>
    simp only [SessionManager.update_metrics] <;> (repeat' split) <;> rfl

lemma update_metrics_outcomes (M : SessionMetrics) (S : SessionData)
    (stt tr tts : Option ℚ) (success : Bool) (et : Option String) :
    (SessionManager.update_metrics M S stt tr tts success et).1.successful_turns +
        (SessionManager.update_metrics M S stt tr tts success et).1.failed_turns =
      M.successful_turns + M.failed_turns + 1 := by
  cases success <;> cases stt <;> cases tr <;> cases tts <;>
    simp only [SessionManager.update_metrics] <;> (repeat' split)
  all_goals try simp_all
  all_goals omega

lemma run_metrics_cons (M : SessionMetrics) (S : SessionData)
    (c : MetricsCall) (cs : List MetricsCall) :
    run_metrics M S (c :: cs) =
      run_metrics
        (SessionManager.update_metrics M S c.stt_latency c.translation_latency
          c.tts_latency c.success c.error_type).1
        (SessionManager.update_metrics M S c.stt_latency c.translation_latency
          c.tts_latency c.success c.error_type).2 cs := by
  simp only [run_metrics, List.foldl_cons, Prod.mk.eta]

lemma run_metrics_balance (calls : List MetricsCall) (M : SessionMetrics)
    (S : SessionData)
    (h : M.total_turns = M.successful_turns + M.failed_turns) :
    (run_metrics M S calls).1.total_turns =
      (run_metrics M S calls).1.successful_turns +
        (run_metrics M S calls).1.failed_turns := by
  induction calls generalizing M S with
  | nil => exact h
  | cons c cs ih =>
      rw [run_metrics_cons]
      apply ih
      rw [update_metrics_total, update_metrics_outcomes, h]

/-- C10: every `update_metrics` call on an existing session bumps
`total_turns` by exactly one regardless of the success flag; a failure call
bumps it too (advancing the divisor used by later averages); and after any
sequence of calls from fresh metrics, `total_turns` equals
`successful_turns + failed_turns`. -/
theorem total_turns_counts_failures :
    (∀ (M : SessionMetrics) (S : SessionData) (stt tr tts : Option ℚ)
        (success : Bool) (et : Option String),
      (SessionManager.update_metrics M S stt tr tts success et).1.total_turns =
        M.total_turns + 1) ∧
    (∀ (M : SessionMetrics) (S : SessionData) (stt tr tts : Option ℚ)
        (et : Option String),
      (SessionManager.update_metrics M S stt tr tts false et).1.total_turns =
        M.total_turns + 1) ∧
    (∀ (S : SessionData) (calls : List MetricsCall) (sid : String),
      (run_metrics (fresh_metrics sid) S calls).1.total_turns =
        (run_metrics (fresh_metrics sid) S calls).1.successful_turns +
          (run_metrics (fresh_metrics sid) S calls).1.failed_turns) :=
  ⟨fun M S stt tr tts success et =>
      update_metrics_total M S stt tr tts success et,
    fun M S stt tr tts et => update_metrics_total M S stt tr tts false et,
    fun S calls sid => run_metrics_balance calls (fresh_metrics sid) S rfl⟩

end RealtimeTranslate
